import Mathlib

/-!
Verification development for the IELTSAIPrep repository.

Shallow embedding of the entitlement ledger (`EntitlementDAL` in
`dynamodb_dal.py`), the regional router (`GeminiRegionalRouter` in
`gemini_regional_router.py`) and the live session lifecycle
(`GeminiLiveSessionAWS` in `gemini_live_audio_service_aws.py`),
together with theorems settling the specification claims.

Conventions of the embedding:
* Python strings are Lean `String`; Python substring test `a in b` is
  `pyIn`, `str.lower()` is `pyLower`, truthiness+`strip()` blankness is
  `pyBlank` — all defined structurally over `List Char` so the kernel
  can evaluate them.
* Timestamps (`datetime.utcnow()`) are `Nat` seconds passed explicitly.
* DynamoDB is a list of records.  A `Query` on the partition key
  returns that user's items sorted ascending by the sort key
  (`product_id`) — DynamoDB's documented ordering; `put_item` replaces
  the item with the same `(user_id, product_id)` primary key.
* A raising store is modelled by the `raiseOnOp` flag: every table
  operation returns `Except`, erroring when the flag is set.  Python
  `try/except` blocks become a `match` on the `Except` value.
-/

/-- Total lexicographic order on `List Char` by code point, Bool-valued.
Models DynamoDB's ascending sort-key (UTF-8 byte) ordering on ASCII ids. -/
def strLeList : List Char → List Char → Bool
  | [], _ => true
  | _ :: _, [] => false
  | a :: as, b :: bs =>
    if a.toNat < b.toNat then true
    else if b.toNat < a.toNat then false
    else strLeList as bs

/-- `leadMatch n h` is true when `n` is an initial segment of `h`. -/
def leadMatch : List Char → List Char → Bool
  | [], _ => true
  | _ :: _, [] => false
  | a :: as, b :: bs => a == b && leadMatch as bs

/-- `substrCheck n h` is true when `n` occurs contiguously inside `h`. -/
def substrCheck (n : List Char) : List Char → Bool
  | [] => n.isEmpty
  | c :: rest => leadMatch n (c :: rest) || substrCheck n rest

/-- Python substring test: `needle in haystack`. -/
def pyIn (needle haystack : String) : Bool := substrCheck needle.data haystack.data

/-- ASCII lower-casing of one character (what `str.lower()` does on the
ASCII product ids appearing in this codebase). -/
def charLower (c : Char) : Char :=
  if 65 ≤ c.toNat ∧ c.toNat ≤ 90 then Char.ofNat (c.toNat + 32) else c

/-- Python `str.lower()` (ASCII fragment). -/
def pyLower (s : String) : String := ⟨s.data.map charLower⟩

/-- Python `not s or not s.strip()`: the string is empty or whitespace-only. -/
def pyBlank (s : String) : Bool := s.data.all Char.isWhitespace

/-- `PRODUCT_ASSESSMENTS` table from `dynamodb_dal.py` (lines 20-33):
number of assessments granted per product id. -/
def PRODUCT_ASSESSMENTS : List (String × Int) :=
  [("com.ieltsaiprep.academic.writing", 2),
   ("com.ieltsaiprep.general.writing", 2),
   ("com.ieltsaiprep.academic.speaking", 2),
   ("com.ieltsaiprep.general.speaking", 2),
   ("com.ieltsaiprep.academic.mocktest", 2),
   ("com.ieltsaiprep.general.mocktest", 2),
   ("academic_writing", 2),
   ("general_writing", 2),
   ("academic_speaking", 2),
   ("general_speaking", 2)]

/-- `PRODUCT_ASSESSMENTS.get(product_id, 2)`. -/
def productAssessmentsGet (p : String) : Int :=
  (PRODUCT_ASSESSMENTS.lookup p).getD 2

/-- One entitlement record, as written by `grant_entitlement`. -/
structure Entitlement where
  user_id : String
  product_id : String
  transaction_id : String
  platform : String
  assessments_purchased : Int
  assessments_remaining : Int
  purchase_date : Nat
  status : String
  receipt_verified : Bool
  created_at : Nat
  updated_at : Nat
  last_used_assessment : Option String
  receipt_data : Option String
deriving DecidableEq, Repr

/-- The entitlements DynamoDB table plus an error-injection flag for the
underlying store. -/
structure Table where
  items : List Entitlement
  raiseOnOp : Bool
deriving DecidableEq, Repr

/-- Sort-key order on records: ascending `product_id`. -/
def productLe (a b : Entitlement) : Prop :=
  strLeList a.product_id.data b.product_id.data = true

instance : DecidableRel productLe := fun a b => by
  unfold productLe; infer_instance

/-- `table.query(KeyConditionExpression=Key("user_id").eq(u))`: the user's
records in ascending sort-key (`product_id`) order. -/
def dbQueryUser (t : Table) (u : String) : Except String (List Entitlement) :=
  if t.raiseOnOp then .error "ClientError"
  else .ok (List.insertionSort productLe (t.items.filter (fun e => e.user_id == u)))

/-- `table.query(IndexName="TransactionIndex", ...)`: records with the
given `transaction_id`. -/
def dbQueryTransactionIndex (t : Table) (tx : String) :
    Except String (List Entitlement) :=
  if t.raiseOnOp then .error "ClientError"
  else .ok (t.items.filter (fun e => e.transaction_id == tx))

/-- Same `(user_id, product_id)` primary key. -/
def sameKey (a b : Entitlement) : Bool :=
  a.user_id == b.user_id && a.product_id == b.product_id

/-- `table.put_item(Item=e)`: replaces any item with `e`'s primary key. -/
def dbPutItem (t : Table) (e : Entitlement) : Except String Table :=
  if t.raiseOnOp then .error "ClientError"
  else .ok ⟨(t.items.filter (fun x => !(sameKey x e))) ++ [e], t.raiseOnOp⟩

/-- `table.update_item` as issued by `consume_assessment`: on the item
keyed `(u, p)` set `assessments_remaining`, `status`, `updated_at` and
`last_used_assessment`. -/
def dbUpdateItem (t : Table) (u p : String) (remaining : Int)
    (status : String) (updated : Nat) (aid : String) : Except String Table :=
  if t.raiseOnOp then .error "ClientError"
  else .ok ⟨t.items.map (fun x =>
    if x.user_id == u && x.product_id == p then
      { x with assessments_remaining := remaining, status := status,
               updated_at := updated, last_used_assessment := some aid }
    else x), t.raiseOnOp⟩

/-- `EntitlementDAL.get_entitlement_by_transaction` (dynamodb_dal.py
556-577): first indexed record, `None` on empty, and its own
`except Exception: return None`. -/
def get_entitlement_by_transaction (t : Table) (tx : String) :
    Option Entitlement :=
  match dbQueryTransactionIndex t tx with
  | .error _ => none
  | .ok items => items.head?

/-- The item `grant_entitlement` writes on success (`entitlement_data`
dict, dynamodb_dal.py 409-426): units come from `PRODUCT_ASSESSMENTS`,
receipt data only drives `receipt_verified`/`receipt_data`. -/
def grantRecord (now : Nat) (user product tx platform : String)
    (receipt : Option String) : Entitlement :=
  { user_id := user, product_id := product, transaction_id := tx,
    platform := platform,
    assessments_purchased := productAssessmentsGet product,
    assessments_remaining := productAssessmentsGet product,
    purchase_date := now, status := "active",
    receipt_verified := receipt.isSome, created_at := now, updated_at := now,
    last_used_assessment := none, receipt_data := receipt }

/-- Body of the `try:` block of `EntitlementDAL.grant_entitlement`
(dynamodb_dal.py 378-433). -/
def grantBody (now : Nat) (user product tx platform : String)
    (receipt : Option String) (t : Table) : Except String (Bool × Table) :=
  if pyBlank tx then .ok (false, t)
  else
    match get_entitlement_by_transaction t tx with
    | some _ => .ok (false, t)
    | none =>
      match dbPutItem t (grantRecord now user product tx platform receipt) with
      | .error err => .error err
      | .ok t2 => .ok (true, t2)

/-- `EntitlementDAL.grant_entitlement`: the `try:` body with
`except Exception: return False` (leaving the table as it was). -/
def grant_entitlement (now : Nat) (user product tx platform : String)
    (receipt : Option String) (t : Table) : Bool × Table :=
  match grantBody now user product tx platform receipt t with
  | .ok r => r
  | .error _ => (false, t)

/-- Result dict of `EntitlementDAL.check_entitlement`. -/
structure CheckResult where
  has_access : Bool
  assessments_remaining : Int
  products : List Entitlement
  total_products : Nat
deriving DecidableEq, Repr

/-- Matching test inside `check_entitlement`'s loop:
`status == "active" and module_type in product_id.lower()`. -/
def entMatches (module_type : String) (e : Entitlement) : Bool :=
  e.status == "active" && pyIn module_type (pyLower e.product_id)

/-- Body of the `try:` block of `EntitlementDAL.check_entitlement`
(dynamodb_dal.py 435-482). -/
def checkBody (t : Table) (user module_type : String) :
    Except String CheckResult :=
  match dbQueryUser t user with
  | .error err => .error err
  | .ok ents =>
    let matching := ents.filter (entMatches module_type)
    let total := matching.foldl (fun a e => a + e.assessments_remaining) 0
    .ok ⟨total > 0, total, matching, matching.length⟩

/-- `EntitlementDAL.check_entitlement`: try body, with
`except Exception:` returning the no-access dict. -/
def check_entitlement (t : Table) (user module_type : String) : CheckResult :=
  match checkBody t user module_type with
  | .ok r => r
  | .error _ => ⟨false, 0, [], 0⟩

/-- Eligibility test inside `consume_assessment`'s loop: active,
module-type substring match, and remaining units. -/
def consumeEligible (module_type : String) (e : Entitlement) : Bool :=
  e.status == "active" && pyIn module_type (pyLower e.product_id)
    && decide (0 < e.assessments_remaining)

/-- Body of the `try:` block of `EntitlementDAL.consume_assessment`
(dynamodb_dal.py 484-540): first eligible record in query order is
decremented; status flips to `"consumed"` when the result is not
positive. -/
def consumeBody (now : Nat) (t : Table) (user module_type aid : String) :
    Except String (Bool × Table) :=
  match dbQueryUser t user with
  | .error err => .error err
  | .ok ents =>
    match ents.find? (consumeEligible module_type) with
    | none => .ok (false, t)
    | some e =>
      let newRemaining := e.assessments_remaining - 1
      let newStatus : String := if 0 < newRemaining then "active" else "consumed"
      match dbUpdateItem t user e.product_id newRemaining newStatus now aid with
      | .error err => .error err
      | .ok t2 => .ok (true, t2)

/-- `EntitlementDAL.consume_assessment`: try body with
`except Exception: return False`. -/
def consume_assessment (now : Nat) (t : Table) (user module_type aid : String) :
    Bool × Table :=
  match consumeBody now t user module_type aid with
  | .ok r => r
  | .error _ => (false, t)

/-- `EntitlementDAL.get_remaining_assessments` (dynamodb_dal.py 542-554). -/
def get_remaining_assessments (t : Table) (user module_type : String) : Int :=
  (check_entitlement t user module_type).assessments_remaining

/-! ## Ledger operation traces (for the units invariant) -/

/-- One mutating ledger call, as issued by the mobile purchase/consume
endpoints. -/
inductive LedgerOp where
  | grantOp (now : Nat) (user product tx platform : String) (receipt : Option String)
  | consumeOp (now : Nat) (user module_type aid : String)

/-- Table after one ledger operation. -/
def applyOp (t : Table) : LedgerOp → Table
  | .grantOp now u p tx pl r => (grant_entitlement now u p tx pl r t).2
  | .consumeOp now u m aid => (consume_assessment now t u m aid).2

/-- Record-level invariant of the spec: units-remaining is never
negative, status is `"consumed"` exactly at zero units and `"active"`
exactly while units remain. -/
def recordOk (e : Entitlement) : Prop :=
  0 ≤ e.assessments_remaining
  ∧ (e.status = "consumed" ↔ e.assessments_remaining = 0)
  ∧ (e.status = "active" ↔ 0 < e.assessments_remaining)

/-- DynamoDB primary key of a record. -/
def entKey (e : Entitlement) : String × String := (e.user_id, e.product_id)

/-- Well-formedness DynamoDB guarantees / the spec demands: primary keys
are unique in the table, and transaction ids are unique (the spec's
idempotency invariant). -/
def TableWf (items : List Entitlement) : Prop :=
  items.Pairwise (fun a b => entKey a ≠ entKey b)
  ∧ items.Pairwise (fun a b => a.transaction_id ≠ b.transaction_id)

/-- Between two ledger states, a record (identified by its transaction
id) never gains units. -/
def MonoStep (old new : List Entitlement) : Prop :=
  ∀ e ∈ old, ∀ e2 ∈ new, e2.transaction_id = e.transaction_id →
    e2.assessments_remaining ≤ e.assessments_remaining

/-- The units invariant holds at every state along a trace of ledger
operations, and no step ever increases a surviving record's units. -/
def InvariantAlong : Table → List LedgerOp → Prop
  | _, [] => True
  | t, op :: ops =>
    (∀ e ∈ (applyOp t op).items, recordOk e)
    ∧ TableWf (applyOp t op).items
    ∧ MonoStep t.items (applyOp t op).items
    ∧ InvariantAlong (applyOp t op) ops

/-- Eligibility of a record for `consume_assessment(user, module_type)`:
the row belongs to the user and passes the loop's test. -/
def eligibleIn (user module_type : String) (e : Entitlement) : Bool :=
  (e.user_id == user) && consumeEligible module_type e

/-! ## Regional router (`gemini_regional_router.py`) -/

/-- ASCII upper-casing of one character (Python `str.upper()` on the
ASCII country codes used here). -/
def charUpper (c : Char) : Char :=
  if 97 ≤ c.toNat ∧ c.toNat ≤ 122 then Char.ofNat (c.toNat - 32) else c

/-- Python `str.upper()` (ASCII fragment). -/
def pyUpper (s : String) : String := ⟨s.data.map charUpper⟩

/-- `VERTEX_AI_REGIONS` (gemini_regional_router.py): region name and
`latency_base` for the 21 catalog regions. -/
def VERTEX_AI_REGIONS : List (String × Nat) :=
  [("us-central1", 50), ("us-east4", 55), ("southamerica-east1", 100),
   ("europe-west1", 45), ("europe-west2", 50), ("europe-west3", 48),
   ("europe-west4", 47), ("europe-west8", 52), ("europe-west9", 46),
   ("europe-north1", 55), ("europe-southwest1", 54),
   ("asia-southeast1", 35), ("asia-northeast1", 40), ("asia-northeast3", 42),
   ("asia-south1", 60), ("asia-east1", 45), ("asia-east2", 43),
   ("me-west1", 70), ("me-central1", 75),
   ("australia-southeast1", 120), ("africa-south1", 150)]

/-- The catalog region names. -/
def vertexRegionNames : List String := VERTEX_AI_REGIONS.map Prod.fst

/-- `COUNTRY_TO_REGION` (gemini_regional_router.py): country to region
mapping for 77 countries. -/
def COUNTRY_TO_REGION : List (String × String) :=
  [("US", "us-central1"), ("CA", "us-central1"), ("MX", "us-central1"),
   ("BR", "southamerica-east1"), ("AR", "southamerica-east1"),
   ("CL", "southamerica-east1"), ("CO", "southamerica-east1"),
   ("PE", "southamerica-east1"),
   ("GB", "europe-west2"), ("IE", "europe-west2"), ("FR", "europe-west9"),
   ("DE", "europe-west3"), ("NL", "europe-west4"), ("BE", "europe-west1"),
   ("IT", "europe-west8"), ("ES", "europe-southwest1"),
   ("PT", "europe-southwest1"), ("CH", "europe-west3"), ("AT", "europe-west3"),
   ("SE", "europe-north1"), ("NO", "europe-north1"), ("DK", "europe-north1"),
   ("FI", "europe-north1"),
   ("PL", "europe-west3"), ("CZ", "europe-west3"), ("HU", "europe-west3"),
   ("RO", "europe-west3"), ("GR", "europe-west8"), ("TR", "europe-west4"),
   ("IL", "me-west1"), ("AE", "me-central1"), ("SA", "me-central1"),
   ("QA", "me-central1"), ("KW", "me-central1"), ("BH", "me-central1"),
   ("OM", "me-central1"), ("JO", "me-west1"), ("LB", "me-west1"),
   ("CN", "asia-east1"), ("JP", "asia-northeast1"), ("KR", "asia-northeast3"),
   ("TW", "asia-east1"), ("HK", "asia-east2"), ("MO", "asia-east2"),
   ("SG", "asia-southeast1"), ("MY", "asia-southeast1"),
   ("TH", "asia-southeast1"), ("VN", "asia-southeast1"),
   ("PH", "asia-southeast1"), ("ID", "asia-southeast1"),
   ("KH", "asia-southeast1"), ("LA", "asia-southeast1"),
   ("MM", "asia-southeast1"), ("BN", "asia-southeast1"),
   ("IN", "asia-south1"), ("PK", "asia-south1"), ("BD", "asia-south1"),
   ("LK", "asia-south1"), ("NP", "asia-south1"),
   ("AU", "australia-southeast1"), ("NZ", "australia-southeast1"),
   ("ZA", "africa-south1"), ("EG", "africa-south1"), ("NG", "africa-south1"),
   ("KE", "africa-south1"), ("MA", "europe-southwest1"),
   ("TN", "europe-southwest1"), ("DZ", "europe-southwest1"),
   ("RU", "europe-north1"), ("UA", "europe-west3"), ("BY", "europe-west3"),
   ("KZ", "asia-south1"), ("UZ", "asia-south1"), ("GE", "me-west1"),
   ("AZ", "me-west1"), ("AM", "me-west1"), ("IQ", "me-central1"),
   ("IR", "me-central1"), ("AF", "asia-south1"), ("ET", "africa-south1"),
   ("GH", "africa-south1"), ("TZ", "africa-south1"), ("UG", "africa-south1")]

/-- Per-region health entry (`self.region_health[region]`). -/
structure RegionHealth where
  status : String
  last_success : Nat
  failure_count : Nat
  latency_ms : Int
deriving DecidableEq, Repr

/-- The router's `region_health` dict. -/
abbrev HealthMap := List (String × RegionHealth)

/-- `_initialize_health_status`: every catalog region starts healthy
with a fresh success timestamp and zero failures. -/
def initializeHealthStatus (now : Nat) : HealthMap :=
  VERTEX_AI_REGIONS.map (fun p => (p.1, ⟨"healthy", now, 0, (p.2 : Int)⟩))

/-- `GeminiRegionalRouter._is_region_healthy`: unknown region, five or
more consecutive failures, a success older than 30 minutes, or a
non-healthy status all make the region unhealthy. -/
def isRegionHealthy (h : HealthMap) (region : String) (now : Nat) : Bool :=
  match h.lookup region with
  | none => false
  | some st =>
    if 5 ≤ st.failure_count then false
    else if 1800 < now - st.last_success then false
    else st.status == "healthy"

/-- Point update of one region's health entry. -/
def updateHealth (h : HealthMap) (region : String)
    (f : RegionHealth → RegionHealth) : HealthMap :=
  h.map (fun p => if p.1 = region then (p.1, f p.2) else p)

/-- `GeminiRegionalRouter.mark_success`: resets status, success
timestamp, failure count and latency. -/
def mark_success (h : HealthMap) (region : String) (latency : Int)
    (now : Nat) : HealthMap :=
  if (h.lookup region).isSome then
    updateHealth h region (fun _ => ⟨"healthy", now, 0, latency⟩)
  else h

/-- `GeminiRegionalRouter.mark_failure`: increments the failure count
and flips status to `"unhealthy"` once it reaches 5. -/
def mark_failure (h : HealthMap) (region : String) (_err : String) : HealthMap :=
  if (h.lookup region).isSome then
    updateHealth h region (fun st =>
      let c := st.failure_count + 1
      { st with failure_count := c,
                status := if 5 ≤ c then "unhealthy" else st.status })
  else h

/-- `n` consecutive `mark_failure` calls on one region. -/
def markFailureN : Nat → HealthMap → String → HealthMap
  | 0, h, _ => h
  | n + 1, h, r => mark_failure (markFailureN n h r) r "error"

/-- `GeminiRegionalRouter._detect_region_from_ip`: the source is a stub
that always returns `None` (geolocation is a TODO). -/
def detectRegionFromIp (_ip : String) : Option String := none

/-- Priorities 4 and 5 and the final fallback of `get_optimal_region`:
default region if healthy, otherwise `random.choice` over the healthy
regions (modelled by the `pick` parameter), otherwise the default
region anyway. -/
def gorFallback (h : HealthMap) (now : Nat)
    (pick : List String → String) : String :=
  if isRegionHealthy h "us-central1" now then "us-central1"
  else
    let healthy := vertexRegionNames.filter (fun r => isRegionHealthy h r now)
    if healthy.isEmpty then "us-central1" else pick healthy

/-- Priority 3 of `get_optimal_region`: IP-based geolocation. -/
def gorStage3 (h : HealthMap) (now : Nat) (ip : Option String)
    (pick : List String → String) : String :=
  match ip with
  | some i =>
    if i != "" then
      match detectRegionFromIp i with
      | some d => if isRegionHealthy h d now then d else gorFallback h now pick
      | none => gorFallback h now pick
    else gorFallback h now pick
  | none => gorFallback h now pick

/-- Priority 2 of `get_optimal_region`: country-code mapping. -/
def gorStage2 (h : HealthMap) (now : Nat) (country ip : Option String)
    (pick : List String → String) : String :=
  match country with
  | some c =>
    if c != "" then
      match COUNTRY_TO_REGION.lookup (pyUpper c) with
      | some m => if isRegionHealthy h m now then m else gorStage3 h now ip pick
      | none => gorStage3 h now ip pick
    else gorStage3 h now ip pick
  | none => gorStage3 h now ip pick

/-- `GeminiRegionalRouter.get_optimal_region` (gemini_regional_router.py
290-342).  `pick` stands for `random.choice`; the function never raises
and always returns a region name. -/
def get_optimal_region (h : HealthMap) (now : Nat)
    (country ip preferred : Option String)
    (pick : List String → String) : String :=
  match preferred with
  | some p =>
    if p != "" && vertexRegionNames.contains p && isRegionHealthy h p now
    then p
    else gorStage2 h now country ip pick
  | none => gorStage2 h now country ip pick

/-- Spec-side resolution order, written from the spec's words: the
candidate slots are (1) a catalog-valid preferred region, (2) the
country-mapped region, (3) an IP-derived region, (4) the fixed default
region. -/
def specCandidates (country ip preferred : Option String) : List String :=
  (match preferred with
   | some p => if vertexRegionNames.contains p then [p] else []
   | none => []) ++
  (match country with
   | some c => (COUNTRY_TO_REGION.lookup (pyUpper c)).toList
   | none => []) ++
  (match ip with
   | some i => (detectRegionFromIp i).toList
   | none => []) ++
  ["us-central1"]

/-- Spec-side acceptance of a result given an ordered candidate list:
the first healthy candidate wins; with no healthy candidate, (5) any
healthy catalog region is acceptable; with no healthy region at all,
the default region is returned normally. -/
def specAfter (h : HealthMap) (now : Nat) (cands : List String)
    (result : String) : Prop :=
  match cands.find? (fun r => isRegionHealthy h r now) with
  | some r => result = r
  | none =>
    if (vertexRegionNames.filter (fun r => isRegionHealthy h r now)).isEmpty
    then result = "us-central1"
    else result ∈ vertexRegionNames.filter (fun r => isRegionHealthy h r now)

/-- Spec-side statement of the claim, over the spec's resolution order. -/
def specResolutionOk (h : HealthMap) (now : Nat)
    (country ip preferred : Option String) (result : String) : Prop :=
  specAfter h now (specCandidates country ip preferred) result

/-! ## Live session lifecycle (`gemini_live_audio_service_aws.py`) -/

/-- Observable side effects of a session operation: WebSocket messages
posted to the caller, remote-connection operations, region-health
reports, and callback invocations. -/
inductive Effect where
  | wsSend (msgType : String)
  | closeRemote
  | openRemote (model : String)
  | markSuccessEff (region : String) (latency : Int)
  | cancelTask
  | textCallback (msg : String)
deriving DecidableEq, Repr

/-- State of one `GeminiLiveSessionAWS`.  `session_open` models
`self.session is not None`; `has_ws` models having both an API Gateway
client and a connection id; `duration_seconds` abstracts the workflow
summary's duration field. -/
structure SessionState where
  model_id : String
  system_instruction : String
  is_connected : Bool
  session_open : Bool
  has_response_task : Bool
  messages_in_current_part : Nat
  current_part : Int
  start_time : Nat
  has_ws : Bool
  has_router : Bool
  region : Option String
  duration_seconds : Int
deriving DecidableEq, Repr

/-- `self.lambda_timeout_warning_seconds = 840` (14 minutes, leaving a
one-minute buffer inside the 15-minute Lambda limit). -/
def lambda_timeout_warning_seconds : Nat := 840

/-- `GeminiLiveSessionAWS._check_lambda_timeout` (lines 304-310):
elapsed wall-clock time strictly above the ceiling. -/
def check_lambda_timeout (s : SessionState) (now : Nat) : Bool :=
  decide (lambda_timeout_warning_seconds < now - s.start_time)

/-- `GeminiLiveSessionAWS.send_websocket_message`: posts to the caller's
WebSocket when a client and connection id exist, else does nothing. -/
def sendWebsocketMessage (s : SessionState) (msgType : String) : List Effect :=
  if s.has_ws then [Effect.wsSend msgType] else []

/-- `GeminiLiveSessionAWS.switch_model` (lines 342-378): no-op when not
connected; otherwise closes the current remote session, opens one with
the new model, resets the per-part message counter and notifies the
caller. -/
def switch_model (s : SessionState) (new_model new_prompt : String) :
    SessionState × List Effect :=
  if s.is_connected then
    let closeEff := if s.session_open then [Effect.closeRemote] else []
    let s2 := { s with system_instruction := new_prompt,
                       model_id := new_model, session_open := true,
                       messages_in_current_part := 0 }
    (s2, closeEff ++ [Effect.openRemote new_model]
      ++ sendWebsocketMessage s2 "model_switched")
  else (s, [])

/-- `GeminiLiveSessionAWS.check_and_transition_parts` (lines 380-416).
The workflow manager lives in `ielts_workflow_manager.py` (outside the
sources); its two calls are abstracted as parameters:
`shouldTransition` is the value of `workflow_manager.should_transition()`
and `configModel`/`configPrompt` the per-part configuration returned by
`update_state_for_part` (which, per the part state machine of the spec,
advances `current_part`). -/
def check_and_transition_parts (shouldTransition : Bool)
    (configModel configPrompt : Int → String) (hasTextCallback : Bool)
    (s : SessionState) (now : Nat) : Bool × SessionState × List Effect :=
  if check_lambda_timeout s now then
    (false, s, sendWebsocketMessage s "timeout_warning")
  else if shouldTransition then
    let nextPart := s.current_part + 1
    if nextPart ≤ 3 then
      let sw := switch_model s (configModel nextPart) (configPrompt nextPart)
      let s2 := { sw.1 with current_part := nextPart }
      (true, s2,
        sw.2
          ++ (if hasTextCallback then [Effect.textCallback "part_transition"] else [])
          ++ sendWebsocketMessage s2 "part_transition")
    else (false, s, [])
  else (false, s, [])

/-- Latency estimate computed inside `close` from the summary duration:
`(duration * 1000) / 10` when positive, else `100`. -/
def closeLatency (s : SessionState) : Int :=
  if 0 < s.duration_seconds then s.duration_seconds * 100 else 100

/-- `GeminiLiveSessionAWS.close` (lines 540-569).  When a session handle
exists: report region health, emit the summary over the WebSocket,
cancel the response task and close the remote session.  The source
never clears `self.session`; it only resets `self.is_connected`. -/
def close (s : SessionState) : SessionState × List Effect :=
  if s.session_open then
    ({ s with is_connected := false },
      (match s.has_router, s.region with
       | true, some r => [Effect.markSuccessEff r (closeLatency s)]
       | _, _ => [])
      ++ sendWebsocketMessage s "assessment_complete"
      ++ (if s.has_response_task then [Effect.cancelTask] else [])
      ++ [Effect.closeRemote])
  else ({ s with is_connected := false }, [])

/-! ## Helper lemmas -/

theorem productAssessmentsGet_eq_two (p : String) : productAssessmentsGet p = 2 := by
  unfold productAssessmentsGet PRODUCT_ASSESSMENTS
  simp only [List.lookup]
  repeat' split <;> simp_all

theorem getByTx_none_iff (items : List Entitlement) (tx : String) :
    get_entitlement_by_transaction ⟨items, false⟩ tx = none
      ↔ ∀ e ∈ items, e.transaction_id ≠ tx := by
  unfold get_entitlement_by_transaction dbQueryTransactionIndex
  simp [List.head?_eq_none_iff, List.filter_eq_nil_iff]

theorem grant_blank (now : Nat) (u p tx pl : String) (r : Option String)
    (t : Table) (hb : pyBlank tx = true) :
    grant_entitlement now u p tx pl r t = (false, t) := by
  simp [grant_entitlement, grantBody, hb]

theorem grant_dup (now : Nat) (u p tx pl : String) (r : Option String)
    (items : List Entitlement) (hdup : ∃ e ∈ items, e.transaction_id = tx) :
    grant_entitlement now u p tx pl r ⟨items, false⟩ = (false, ⟨items, false⟩) := by
  rcases hblank : pyBlank tx with _ | _
  · have hne : ¬ get_entitlement_by_transaction ⟨items, false⟩ tx = none := by
      rw [getByTx_none_iff]
      push_neg
      rcases hdup with ⟨e, he, hetx⟩
      exact ⟨e, he, hetx⟩
    rcases hg : get_entitlement_by_transaction ⟨items, false⟩ tx with _ | w
    · exact absurd hg hne
    · simp [grant_entitlement, grantBody, hblank, hg]
  · exact grant_blank now u p tx pl r _ hblank

theorem grant_fresh (now : Nat) (u p tx pl : String) (r : Option String)
    (items : List Entitlement) (hb : pyBlank tx = false)
    (hfresh : ∀ e ∈ items, e.transaction_id ≠ tx) :
    grant_entitlement now u p tx pl r ⟨items, false⟩ =
      (true, ⟨(items.filter
          (fun x => !(sameKey x (grantRecord now u p tx pl r))))
        ++ [grantRecord now u p tx pl r], false⟩) := by
  have hg : get_entitlement_by_transaction ⟨items, false⟩ tx = none :=
    (getByTx_none_iff items tx).mpr hfresh
  simp [grant_entitlement, grantBody, hb, hg, dbPutItem]

/-! ## Claim theorems -/

/-- C1: grant rejects a blank transaction id and a transaction id already
recorded anywhere in the ledger, returning false and leaving the ledger
unchanged; granting twice with the same (valid, fresh) transaction id
stores exactly one entitlement carrying it and the second call returns
false without mutating the ledger. -/
theorem grant_rejection_contract (items : List Entitlement)
    (now now2 : Nat) (u p pl u2 p2 pl2 tx : String) (r r2 : Option String) :
    (pyBlank tx = true →
      grant_entitlement now u p tx pl r ⟨items, false⟩ = (false, ⟨items, false⟩))
    ∧ ((∃ e ∈ items, e.transaction_id = tx) →
      grant_entitlement now u p tx pl r ⟨items, false⟩ = (false, ⟨items, false⟩))
    ∧ (pyBlank tx = false → (∀ e ∈ items, e.transaction_id ≠ tx) →
        (grant_entitlement now2 u2 p2 tx pl2 r2
            (grant_entitlement now u p tx pl r ⟨items, false⟩).2).1 = false
        ∧ (grant_entitlement now2 u2 p2 tx pl2 r2
            (grant_entitlement now u p tx pl r ⟨items, false⟩).2).2
          = (grant_entitlement now u p tx pl r ⟨items, false⟩).2
        ∧ ((grant_entitlement now u p tx pl r ⟨items, false⟩).2.items.filter
            (fun e => e.transaction_id == tx)).length = 1) := by
  refine ⟨fun hb => grant_blank now u p tx pl r _ hb,
          fun hdup => grant_dup now u p tx pl r items hdup, ?_⟩
  intro hb hfresh
  have h1 := grant_fresh now u p tx pl r items hb hfresh
  rw [h1]
  have hrecmem : ∃ e ∈ (items.filter
        (fun x => !(sameKey x (grantRecord now u p tx pl r))))
      ++ [grantRecord now u p tx pl r], e.transaction_id = tx := by
    exact ⟨grantRecord now u p tx pl r, by simp, rfl⟩
  have h2 := grant_dup now2 u2 p2 tx pl2 r2 _ hrecmem
  refine ⟨by rw [h2], by rw [h2], ?_⟩
  have hfiltered : (items.filter
        (fun x => !(sameKey x (grantRecord now u p tx pl r)))).filter
      (fun e => e.transaction_id == tx) = [] := by
    rw [List.filter_eq_nil_iff]
    intro e he
    have hmem := List.mem_of_mem_filter he
    simpa using hfresh e hmem
  rw [List.filter_append, hfiltered]
  simp [grantRecord]

/-- C1 witness: two grants with transaction id `"tx-001"` on an empty
ledger leave one record with that id and the second call returns false. -/
theorem grant_rejection_contract_witness :
    (grant_entitlement 2 "u2" "p2" "tx-001" "android" none
        (grant_entitlement 1 "u1" "com.ieltsaiprep.academic.writing" "tx-001"
          "ios" none ⟨[], false⟩).2).1 = false
    ∧ ((grant_entitlement 1 "u1" "com.ieltsaiprep.academic.writing" "tx-001"
          "ios" none ⟨[], false⟩).2.items.filter
        (fun e => e.transaction_id == "tx-001")).length = 1 := by
  have h := (grant_rejection_contract [] 1 2 "u1" "com.ieltsaiprep.academic.writing"
      "ios" "u2" "p2" "android" "tx-001" none none).2.2 (by decide) (by simp)
  exact ⟨h.1, h.2.2⟩

/-- C3 (code-bug evidence): granting the purchasable product
`com.ieltsaiprep.academic.writing` succeeds, yet
`check_entitlement(user, "academic_writing")` reports no access and zero
units, because `"academic_writing"` is not a substring of the dotted
product id. -/
theorem check_access_module_match_failing_input :
    (grant_entitlement 1 "u1" "com.ieltsaiprep.academic.writing" "tx-001"
        "ios" none ⟨[], false⟩).1 = true
    ∧ check_entitlement
        (grant_entitlement 1 "u1" "com.ieltsaiprep.academic.writing" "tx-001"
          "ios" none ⟨[], false⟩).2 "u1" "academic_writing"
      = ⟨false, 0, [], 0⟩
    ∧ pyIn "academic_writing" (pyLower "com.ieltsaiprep.academic.writing") = false := by
  decide

/-- C10: a successful grant stores exactly the record built by
`grantRecord`: its purchased and remaining units are the
`PRODUCT_ASSESSMENTS` value for the product id (2 for every product,
including the default for unknown ids); receipt data only drives the
`receipt_verified` flag and stored receipt blob, never the unit count. -/
theorem granted_units_from_product_table (now : Nat)
    (u p tx pl : String) (r : Option String) (t : Table)
    (h : (grant_entitlement now u p tx pl r t).1 = true) :
    (grant_entitlement now u p tx pl r t).2.items
      = t.items.filter (fun x => !(sameKey x (grantRecord now u p tx pl r)))
          ++ [grantRecord now u p tx pl r]
    ∧ (grantRecord now u p tx pl r).assessments_purchased = productAssessmentsGet p
    ∧ (grantRecord now u p tx pl r).assessments_remaining = productAssessmentsGet p
    ∧ productAssessmentsGet p = 2
    ∧ (grantRecord now u p tx pl r).receipt_verified = r.isSome
    ∧ (∀ r' : Option String,
        (grantRecord now u p tx pl r').assessments_remaining
            = (grantRecord now u p tx pl r).assessments_remaining
          ∧ (grantRecord now u p tx pl r').assessments_purchased
            = (grantRecord now u p tx pl r).assessments_purchased) := by
  refine ⟨?_, rfl, rfl, productAssessmentsGet_eq_two p, rfl,
    fun r' => ⟨rfl, rfl⟩⟩
  rcases hb : pyBlank tx with _ | _
  · rcases hg : get_entitlement_by_transaction t tx with _ | w
    · rcases hput : dbPutItem t (grantRecord now u p tx pl r) with e | t2
      · simp [grant_entitlement, grantBody, hb, hg, hput] at h
      · have : t.raiseOnOp = false := by
          by_contra hr
          rw [Bool.not_eq_false] at hr
          simp [dbPutItem, hr] at hput
        rw [dbPutItem, if_neg (by simp [this])] at hput
        simp only [Except.ok.injEq] at hput
        simp [grant_entitlement, grantBody, hb, hg, dbPutItem, this, ← hput]
    · simp [grant_entitlement, grantBody, hb, hg] at h
  · simp [grant_entitlement, grantBody, hb] at h

/-- C10 witness: a concrete successful grant of an unknown product id
still stores 2 units. -/
theorem granted_units_from_product_table_witness :
    (grant_entitlement 1 "u1" "some.unknown.product" "tx-9" "ios"
        (some "receipt") ⟨[], false⟩).1 = true
    ∧ (grant_entitlement 1 "u1" "some.unknown.product" "tx-9" "ios"
        (some "receipt") ⟨[], false⟩).2.items
      = [grantRecord 1 "u1" "some.unknown.product" "tx-9" "ios" (some "receipt")] := by
  constructor
  · decide
  · have h := granted_units_from_product_table 1 "u1" "some.unknown.product"
      "tx-9" "ios" (some "receipt") ⟨[], false⟩ (by decide)
    simpa using h.1

/-- C5 is false on the code (counterexample): on a store that raises,
the body of each ledger operation errors, yet the operation returns a
normal value — `grant`/`consume` return false and `check` returns the
no-access dict — instead of propagating the error to the caller. -/
theorem storage_error_propagation_counterexample :
    grantBody 1 "u" "p" "tx" "ios" none ⟨[], true⟩ = .error "ClientError"
    ∧ grant_entitlement 1 "u" "p" "tx" "ios" none ⟨[], true⟩ = (false, ⟨[], true⟩)
    ∧ checkBody ⟨[], true⟩ "u" "writing" = .error "ClientError"
    ∧ check_entitlement ⟨[], true⟩ "u" "writing" = ⟨false, 0, [], 0⟩
    ∧ consumeBody 1 ⟨[], true⟩ "u" "writing" "a" = .error "ClientError"
    ∧ consume_assessment 1 ⟨[], true⟩ "u" "writing" "a" = (false, ⟨[], true⟩) :=
  ⟨rfl, rfl, rfl, rfl, rfl, rfl⟩

/-- C5 amended: every ledger operation catches storage errors internally
(`except Exception`) and converts them into a failure-shaped normal
return — false for grant and consume, the no-access dict for
check-access — leaving the table unchanged and never re-raising. -/
theorem storage_error_swallowed (now : Nat) (u p tx pl m aid : String)
    (r : Option String) (t : Table) (hr : t.raiseOnOp = true) :
    grant_entitlement now u p tx pl r t = (false, t)
    ∧ check_entitlement t u m = ⟨false, 0, [], 0⟩
    ∧ consume_assessment now t u m aid = (false, t) := by
  refine ⟨?_, ?_, ?_⟩
  · rcases hb : pyBlank tx with _ | _
    · simp [grant_entitlement, grantBody, hb, get_entitlement_by_transaction,
        dbQueryTransactionIndex, dbPutItem, hr]
    · simp [grant_entitlement, grantBody, hb]
  · simp [check_entitlement, checkBody, dbQueryUser, hr]
  · simp [consume_assessment, consumeBody, dbQueryUser, hr]

/-- C5 amended witness: concrete raising store. -/
theorem storage_error_swallowed_witness :
    grant_entitlement 7 "u9" "p9" "tx-77" "android" none ⟨[], true⟩
      = (false, ⟨[], true⟩)
    ∧ check_entitlement ⟨[], true⟩ "u9" "speaking" = ⟨false, 0, [], 0⟩
    ∧ consume_assessment 7 ⟨[], true⟩ "u9" "speaking" "aid-1" = (false, ⟨[], true⟩) :=
  storage_error_swallowed 7 "u9" "p9" "tx-77" "android" "speaking" "aid-1" none
    ⟨[], true⟩ rfl

/-- C8: once elapsed time exceeds the 840-second ceiling, a
part-transition check emits only the timeout-warning to the caller,
performs no model switch and no part transition — whatever the workflow
manager would have decided — and leaves the session state (connection,
session handle, model, part) untouched. -/
theorem timeout_refuses_transition (st : SessionState) (now : Nat)
    (shouldTransition : Bool) (configModel configPrompt : Int → String)
    (hasTextCb : Bool)
    (helapsed : lambda_timeout_warning_seconds < now - st.start_time)
    (hws : st.has_ws = true) :
    check_and_transition_parts shouldTransition configModel configPrompt
        hasTextCb st now
      = (false, st, [Effect.wsSend "timeout_warning"]) := by
  simp [check_and_transition_parts, check_lambda_timeout, helapsed,
    sendWebsocketMessage, hws]

/-- C8 witness: a connected session past the ceiling with a transition
due still refuses the switch. -/
theorem timeout_refuses_transition_witness :
    check_and_transition_parts true (fun _ => "m2") (fun _ => "p2") true
        { model_id := "m1", system_instruction := "p1", is_connected := true,
          session_open := true, has_response_task := true,
          messages_in_current_part := 4, current_part := 1, start_time := 0,
          has_ws := true, has_router := true, region := some "us-central1",
          duration_seconds := 0 } 841
      = (false,
          { model_id := "m1", system_instruction := "p1", is_connected := true,
            session_open := true, has_response_task := true,
            messages_in_current_part := 4, current_part := 1, start_time := 0,
            has_ws := true, has_router := true, region := some "us-central1",
            duration_seconds := 0 },
          [Effect.wsSend "timeout_warning"]) :=
  timeout_refuses_transition _ 841 true _ _ true (by decide) rfl

/-- C9 is false on the code (counterexample): after a completed
`close()`, a second `close()` repeats the whole close sequence — it
reports region health again, emits the summary again and closes the
remote connection again — because the session handle is never cleared. -/
theorem close_idempotence_counterexample :
    (close (close
        { model_id := "m1", system_instruction := "p1", is_connected := true,
          session_open := true, has_response_task := true,
          messages_in_current_part := 0, current_part := 3, start_time := 0,
          has_ws := true, has_router := true, region := some "us-central1",
          duration_seconds := 60 }).1).2
      = [Effect.markSuccessEff "us-central1" 6000,
         Effect.wsSend "assessment_complete", Effect.cancelTask,
         Effect.closeRemote] := by
  decide

/-- C9 amended: a second `close()` after a completed `close()` is not a
no-op: since the source never clears the session handle, it performs the
same region-health report, summary emission, task cancellation and
remote close again, and returns the state unchanged (only
`is_connected`, already false, is re-assigned); it does not raise. -/
theorem close_second_call_repeats (s : SessionState)
    (h : s.session_open = true) :
    close (close s).1 = ((close s).1, (close s).2) := by
  simp [close, h, closeLatency, sendWebsocketMessage]

/-- C9 amended witness. -/
theorem close_second_call_repeats_witness :
    close (close
        { model_id := "m1", system_instruction := "p1", is_connected := true,
          session_open := true, has_response_task := false,
          messages_in_current_part := 0, current_part := 3, start_time := 0,
          has_ws := false, has_router := false, region := none,
          duration_seconds := 0 }).1
      = ((close
          { model_id := "m1", system_instruction := "p1", is_connected := true,
            session_open := true, has_response_task := false,
            messages_in_current_part := 0, current_part := 3, start_time := 0,
            has_ws := false, has_router := false, region := none,
            duration_seconds := 0 }).1,
         (close
          { model_id := "m1", system_instruction := "p1", is_connected := true,
            session_open := true, has_response_task := false,
            messages_in_current_part := 0, current_part := 3, start_time := 0,
            has_ws := false, has_router := false, region := none,
            duration_seconds := 0 }).2) :=
  close_second_call_repeats _ rfl

theorem lookup_cons_eq (k : String) (v : RegionHealth) (t : HealthMap) :
    List.lookup k ((k, v) :: t) = some v := by
  simp [List.lookup]

theorem lookup_cons_ne (r k : String) (v : RegionHealth) (t : HealthMap)
    (h : k ≠ r) : List.lookup r ((k, v) :: t) = List.lookup r t := by
  have h1 : (r == k) = false := by
    simpa using fun hh => h hh.symm
  simp [List.lookup, h1]

theorem lookup_updateHealth_self (h : HealthMap) (r : String)
    (f : RegionHealth → RegionHealth) :
    (updateHealth h r f).lookup r = (h.lookup r).map f := by
  induction h with
  | nil => rfl
  | cons p t ih =>
    rcases p with ⟨k, v⟩
    by_cases hk : k = r
    · subst hk
      have h1 : updateHealth ((k, v) :: t) k f = (k, f v) :: updateHealth t k f := by
        simp [updateHealth]
      rw [h1, lookup_cons_eq, lookup_cons_eq]
      rfl
    · have h1 : updateHealth ((k, v) :: t) r f = (k, v) :: updateHealth t r f := by
        simp [updateHealth, hk]
      rw [h1, lookup_cons_ne r k v _ hk, lookup_cons_ne r k v t hk]
      exact ih

theorem lookup_mark_failure (h : HealthMap) (r e : String) :
    (mark_failure h r e).lookup r = (h.lookup r).map (fun st =>
      { st with failure_count := st.failure_count + 1,
                status := if 5 ≤ st.failure_count + 1 then "unhealthy"
                          else st.status }) := by
  unfold mark_failure
  by_cases hs : (h.lookup r).isSome = true
  · rw [if_pos hs, lookup_updateHealth_self]
  · rw [if_neg hs]
    rw [Option.not_isSome_iff_eq_none] at hs
    simp [hs]

theorem lookup_mark_success (h : HealthMap) (r : String) (lat : Int)
    (now : Nat) :
    (mark_success h r lat now).lookup r
      = (h.lookup r).map (fun _ => ⟨"healthy", now, 0, lat⟩) := by
  unfold mark_success
  by_cases hs : (h.lookup r).isSome = true
  · rw [if_pos hs, lookup_updateHealth_self]
  · rw [if_neg hs]
    rw [Option.not_isSome_iff_eq_none] at hs
    simp [hs]

/-- C7: a catalog region starting healthy with failure count 0 becomes
unhealthy after exactly 5 consecutive `mark_failure` calls (for every
observation time), and one subsequent `mark_success` makes `is_healthy`
true again, with the failure count reset and the success timestamp
refreshed. -/
theorem region_failure_threshold_and_recovery (h : HealthMap)
    (region : String) (st : RegionHealth) (lat : Int) (now2 : Nat)
    (hl : h.lookup region = some st) (hc : st.failure_count = 0)
    (_hstatus : st.status = "healthy") :
    (∀ now, isRegionHealthy (markFailureN 5 h region) region now = false)
    ∧ isRegionHealthy
        (mark_success (markFailureN 5 h region) region lat now2) region now2
      = true
    ∧ (mark_success (markFailureN 5 h region) region lat now2).lookup region
      = some ⟨"healthy", now2, 0, lat⟩ := by
  have h5 : (markFailureN 5 h region).lookup region
      = some { st with failure_count := 5, status := "unhealthy" } := by
    simp only [markFailureN, lookup_mark_failure, hl, Option.map_some]
    simp [hc]
  have hrec : (mark_success (markFailureN 5 h region) region lat now2).lookup
      region = some ⟨"healthy", now2, 0, lat⟩ := by
    rw [lookup_mark_success, h5]
    rfl
  refine ⟨fun now => ?_, ?_, hrec⟩
  · simp [isRegionHealthy, h5]
  · simp [isRegionHealthy, hrec]

/-- C7 witness: `us-central1` in the freshly initialized health map. -/
theorem region_failure_threshold_and_recovery_witness :
    isRegionHealthy (markFailureN 5 (initializeHealthStatus 0) "us-central1")
        "us-central1" 100 = false
    ∧ isRegionHealthy
        (mark_success (markFailureN 5 (initializeHealthStatus 0) "us-central1")
          "us-central1" 42 500) "us-central1" 500 = true := by
  have h := region_failure_threshold_and_recovery (initializeHealthStatus 0)
    "us-central1" ⟨"healthy", 0, 0, 50⟩ 42 500 (by decide) rfl rfl
  exact ⟨h.1 100, h.2.1⟩

theorem specAfter_hit (h : HealthMap) (now : Nat) (cands : List String)
    (result r : String) (hr : isRegionHealthy h r now = true)
    (he : result = r) : specAfter h now (r :: cands) result := by
  simp [specAfter, List.find?, hr, he]

theorem specAfter_skip (h : HealthMap) (now : Nat) (cands : List String)
    (result r : String) (hr : isRegionHealthy h r now = false)
    (hrest : specAfter h now cands result) :
    specAfter h now (r :: cands) result := by
  simpa [specAfter, List.find?, hr] using hrest

theorem gorStage3_eq_fallback (h : HealthMap) (now : Nat) (ip : Option String)
    (pick : List String → String) :
    gorStage3 h now ip pick = gorFallback h now pick := by
  cases ip with
  | none => rfl
  | some i =>
    by_cases hi : (i != "") = true <;>
      simp [gorStage3, detectRegionFromIp, hi]

theorem gorFallback_ok (h : HealthMap) (now : Nat)
    (pick : List String → String)
    (hpick : ∀ l : List String, l ≠ [] → pick l ∈ l) :
    specAfter h now ["us-central1"] (gorFallback h now pick) := by
  by_cases hd : isRegionHealthy h "us-central1" now = true
  · simp [specAfter, List.find?, hd, gorFallback]
  · have hd' : isRegionHealthy h "us-central1" now = false := by
      simpa using hd
    by_cases he : (vertexRegionNames.filter
        (fun r => isRegionHealthy h r now)).isEmpty = true
    · simp [specAfter, List.find?, hd', he, gorFallback]
    · have he' : (vertexRegionNames.filter
          (fun r => isRegionHealthy h r now)).isEmpty = false := by
        simpa using he
      have hne : vertexRegionNames.filter (fun r => isRegionHealthy h r now)
          ≠ [] := by
        simpa [List.isEmpty_iff] using he
      simp only [specAfter, List.find?, hd', he', gorFallback, if_neg,
        Bool.false_eq_true, ite_false]
      simpa [hd', he'] using hpick _ hne

theorem gorStage2_ok (h : HealthMap) (now : Nat) (country ip : Option String)
    (pick : List String → String)
    (hpick : ∀ l : List String, l ≠ [] → pick l ∈ l) :
    specAfter h now
      ((match country with
        | some c => (COUNTRY_TO_REGION.lookup (pyUpper c)).toList
        | none => []) ++ ["us-central1"])
      (gorStage2 h now country ip pick) := by
  cases country with
  | none =>
    have h3 : gorStage2 h now none ip pick = gorFallback h now pick := by
      simp [gorStage2, gorStage3_eq_fallback]
    rw [h3]
    simpa using gorFallback_ok h now pick hpick
  | some c =>
    by_cases hc : (c != "") = true
    · rcases hlk : COUNTRY_TO_REGION.lookup (pyUpper c) with _ | m
      · have h3 : gorStage2 h now (some c) ip pick = gorFallback h now pick := by
          simp [gorStage2, hc, hlk, gorStage3_eq_fallback]
        rw [h3]
        simpa [hlk] using gorFallback_ok h now pick hpick
      · by_cases hmh : isRegionHealthy h m now = true
        · have h3 : gorStage2 h now (some c) ip pick = m := by
            simp [gorStage2, hc, hlk, hmh]
          rw [h3]
          simpa [hlk] using specAfter_hit h now ["us-central1"] m m hmh rfl
        · have hmh' : isRegionHealthy h m now = false := by simpa using hmh
          have h3 : gorStage2 h now (some c) ip pick = gorFallback h now pick := by
            simp [gorStage2, hc, hlk, hmh', gorStage3_eq_fallback]
          rw [h3]
          simpa [hlk] using specAfter_skip h now ["us-central1"] _ m hmh'
            (gorFallback_ok h now pick hpick)
    · have hc' : c = "" := by simpa using hc
      subst hc'
      have hlk : COUNTRY_TO_REGION.lookup (pyUpper "") = none := by decide
      have h3 : gorStage2 h now (some "") ip pick = gorFallback h now pick := by
        simp [gorStage2, gorStage3_eq_fallback]
      rw [h3]
      simpa [hlk] using gorFallback_ok h now pick hpick

/-- C6: `get_optimal_region` returns the first healthy match in the
spec's order — catalog-valid preferred region, country-mapped region,
IP-derived region, fixed default region — falling back to any healthy
catalog region, and to the default region (without raising) when no
region is healthy at all. -/
theorem region_resolution_order (h : HealthMap) (now : Nat)
    (country ip preferred : Option String) (pick : List String → String)
    (hpick : ∀ l : List String, l ≠ [] → pick l ∈ l) :
    specResolutionOk h now country ip preferred
      (get_optimal_region h now country ip preferred pick) := by
  cases preferred with
  | none =>
    have hcand : specCandidates country ip none
        = (match country with
           | some c => (COUNTRY_TO_REGION.lookup (pyUpper c)).toList
           | none => []) ++ ["us-central1"] := by
      unfold specCandidates
      cases ip with
      | none => simp
      | some i => simp [detectRegionFromIp]
    unfold specResolutionOk
    rw [hcand]
    exact gorStage2_ok h now country ip pick hpick
  | some p =>
    have hcand : specCandidates country ip (some p)
        = (if vertexRegionNames.contains p = true then [p] else []) ++
          ((match country with
            | some c => (COUNTRY_TO_REGION.lookup (pyUpper c)).toList
            | none => []) ++ ["us-central1"]) := by
      unfold specCandidates
      cases ip with
      | none => simp
      | some i => simp [detectRegionFromIp]
    unfold specResolutionOk
    rw [hcand]
    by_cases hcond : (p != "" && vertexRegionNames.contains p
        && isRegionHealthy h p now) = true
    · obtain ⟨h1, hph⟩ := Bool.and_eq_true_iff.mp hcond
      obtain ⟨hpe, hcont⟩ := Bool.and_eq_true_iff.mp h1
      have hf : get_optimal_region h now country ip (some p) pick = p := by
        unfold get_optimal_region
        show (if (p != "" && vertexRegionNames.contains p
            && isRegionHealthy h p now) = true then p
          else gorStage2 h now country ip pick) = p
        exact if_pos hcond
      rw [hf, if_pos hcont]
      exact specAfter_hit h now _ p p hph rfl
    · have hf : get_optimal_region h now country ip (some p) pick
          = gorStage2 h now country ip pick := by
        unfold get_optimal_region
        show (if (p != "" && vertexRegionNames.contains p
            && isRegionHealthy h p now) = true then p
          else gorStage2 h now country ip pick)
          = gorStage2 h now country ip pick
        exact if_neg hcond
      rw [hf]
      by_cases hcont : vertexRegionNames.contains p = true
      · have hpe : (p != "") = true := by
          by_cases hq : (p != "") = true
          · exact hq
          · exfalso
            have hp0 : p = "" := by
              have hf0 : (p != "") = false := Bool.eq_false_iff.mpr hq
              simpa using hf0
            subst hp0
            have hc0 : vertexRegionNames.contains "" = false := by decide
            rw [hc0] at hcont
            exact Bool.false_ne_true hcont
        have hph : isRegionHealthy h p now = false := by
          by_cases hq : isRegionHealthy h p now = true
          · refine absurd ?_ hcond
            rw [hpe, hcont, hq]
            rfl
          · exact Bool.eq_false_iff.mpr hq
        rw [if_pos hcont]
        exact specAfter_skip h now _ _ p hph
          (gorStage2_ok h now country ip pick hpick)
      · rw [if_neg hcont]
        exact gorStage2_ok h now country ip pick hpick

/-- C6 witness: country `CA` on the freshly initialized (all-healthy)
health map resolves per the spec's order. -/
theorem region_resolution_order_witness :
    specResolutionOk (initializeHealthStatus 0) 0 (some "CA") none none
      (get_optimal_region (initializeHealthStatus 0) 0 (some "CA") none none
        (fun l => l.headD "us-central1")) :=
  region_resolution_order (initializeHealthStatus 0) 0 (some "CA") none none
    (fun l => l.headD "us-central1")
    (by
      intro l hl
      cases l with
      | nil => exact absurd rfl hl
      | cons a t => simp)

theorem strLeList_refl : ∀ a, strLeList a a = true := by
  intro a
  induction a with
  | nil => rfl
  | cons c t ih => simp [strLeList, ih]

theorem strLeList_total : ∀ a b, strLeList a b = true ∨ strLeList b a = true := by
  intro a
  induction a with
  | nil => intro b; left; rfl
  | cons c t ih =>
    intro b
    cases b with
    | nil => right; rfl
    | cons d u =>
      rcases Nat.lt_trichotomy c.toNat d.toNat with hlt | heq | hgt
      · left
        simp [strLeList, hlt]
      · rcases ih u with h | h
        · left
          simp [strLeList, heq, h]
        · right
          simp [strLeList, heq.symm, h]
      · right
        simp [strLeList, hgt]

theorem strLeList_trans : ∀ a b c, strLeList a b = true →
    strLeList b c = true → strLeList a c = true := by
  intro a
  induction a with
  | nil => intro b c _ _; rfl
  | cons x xs ih =>
    intro b c hab hbc
    cases b with
    | nil => simp [strLeList] at hab
    | cons y ys =>
      cases c with
      | nil => simp [strLeList] at hbc
      | cons z zs =>
        rcases Nat.lt_trichotomy x.toNat y.toNat with h1 | h1 | h1
        · rcases Nat.lt_trichotomy y.toNat z.toNat with h2 | h2 | h2
          · simp [strLeList, Nat.lt_trans h1 h2]
          · have hxz : x.toNat < z.toNat := by rw [← h2]; exact h1
            simp [strLeList, hxz]
          · exfalso
            simp [strLeList, Nat.lt_asymm h2, h2] at hbc
        · have hab' : strLeList xs ys = true := by
            simpa [strLeList, h1] using hab
          rcases Nat.lt_trichotomy y.toNat z.toNat with h2 | h2 | h2
          · have hxz : x.toNat < z.toNat := by rw [h1]; exact h2
            simp [strLeList, hxz]
          · have hbc' : strLeList ys zs = true := by
              simpa [strLeList, h2] using hbc
            have hxz : x.toNat = z.toNat := h1.trans h2
            simp [strLeList, hxz, ih ys zs hab' hbc']
          · exfalso
            simp [strLeList, Nat.lt_asymm h2, h2] at hbc
        · exfalso
          simp [strLeList, Nat.lt_asymm h1, h1] at hab

theorem sorted_query (l : List Entitlement) :
    List.Sorted productLe (List.insertionSort productLe l) :=
  @List.sorted_insertionSort _ productLe _
    ⟨fun a b => strLeList_total a.product_id.data b.product_id.data⟩
    ⟨fun _ _ _ hab hbc => strLeList_trans _ _ _ hab hbc⟩ l

theorem find_first_min (p : Entitlement → Bool) :
    ∀ (l : List Entitlement), List.Sorted productLe l →
      ∀ f, l.find? p = some f → ∀ e ∈ l, p e = true → productLe f e := by
  intro l
  induction l with
  | nil =>
    intro _ f hf
    simp at hf
  | cons a t ih =>
    intro hs f hf e he hpe
    rcases hpa : p a with _ | _
    · simp only [List.find?_cons, hpa] at hf
      rcases List.mem_cons.mp he with rfl | he'
      · rw [hpa] at hpe
        exact absurd hpe (by simp)
      · exact ih hs.of_cons f hf e he' hpe
    · simp only [List.find?_cons, hpa] at hf
      have hfa : a = f := by simpa using hf
      subst hfa
      rcases List.mem_cons.mp he with rfl | he'
      · exact strLeList_refl _
      · exact List.rel_of_sorted_cons hs e he'

theorem sameKey_eq_false_iff (a b : Entitlement) :
    sameKey a b = false ↔ entKey a ≠ entKey b := by
  rw [Bool.eq_false_iff]
  simp [sameKey, entKey, Prod.ext_iff]

theorem tx_inj (items : List Entitlement)
    (h : items.Pairwise (fun a b => a.transaction_id ≠ b.transaction_id)) :
    ∀ a ∈ items, ∀ b ∈ items, a.transaction_id = b.transaction_id → a = b := by
  intro a ha b hb he
  by_contra hne
  have hsymm : Symmetric
      (fun a b : Entitlement => a.transaction_id ≠ b.transaction_id) :=
    fun x y hxy hh => hxy hh.symm
  exact (List.Pairwise.forall hsymm h ha hb hne) he

theorem key_inj (items : List Entitlement)
    (h : items.Pairwise (fun a b => entKey a ≠ entKey b)) :
    ∀ a ∈ items, ∀ b ∈ items, entKey a = entKey b → a = b := by
  intro a ha b hb he
  by_contra hne
  have hsymm : Symmetric (fun a b : Entitlement => entKey a ≠ entKey b) :=
    fun x y hxy hh => hxy hh.symm
  exact (List.Pairwise.forall hsymm h ha hb hne) he

theorem grant_cases (now : Nat) (u p tx pl : String) (r : Option String)
    (items : List Entitlement) (b : Bool) :
    (grant_entitlement now u p tx pl r ⟨items, b⟩).2 = ⟨items, b⟩
    ∨ (b = false ∧ pyBlank tx = false
       ∧ (∀ e ∈ items, e.transaction_id ≠ tx)
       ∧ (grant_entitlement now u p tx pl r ⟨items, b⟩).2
         = ⟨items.filter (fun x => !(sameKey x (grantRecord now u p tx pl r)))
             ++ [grantRecord now u p tx pl r], false⟩) := by
  cases b with
  | true =>
    left
    rw [(storage_error_swallowed now u p tx pl "" "" r ⟨items, true⟩ rfl).1]
  | false =>
    rcases hb : pyBlank tx with _ | _
    · rcases hg : get_entitlement_by_transaction ⟨items, false⟩ tx with _ | w
      · right
        have hfresh := (getByTx_none_iff items tx).mp hg
        refine ⟨rfl, rfl, hfresh, ?_⟩
        rw [grant_fresh now u p tx pl r items hb hfresh]
      · left
        simp [grant_entitlement, grantBody, hb, hg]
    · left
      rw [grant_blank now u p tx pl r _ hb]

theorem consume_cases (now : Nat) (items : List Entitlement) (b : Bool)
    (u m aid : String) :
    (consume_assessment now ⟨items, b⟩ u m aid).2 = ⟨items, b⟩
    ∨ ∃ f, b = false
        ∧ (List.insertionSort productLe
            (items.filter (fun e => e.user_id == u))).find?
            (consumeEligible m) = some f
        ∧ consume_assessment now ⟨items, b⟩ u m aid
          = (true, ⟨items.map (fun x =>
              if x.user_id == u && x.product_id == f.product_id then
                { x with assessments_remaining := f.assessments_remaining - 1,
                         status := if 0 < f.assessments_remaining - 1
                                   then "active" else "consumed",
                         updated_at := now,
                         last_used_assessment := some aid }
              else x), false⟩) := by
  cases b with
  | true =>
    left
    rw [(storage_error_swallowed now u "" "" "" m aid none ⟨items, true⟩ rfl).2.2]
  | false =>
    rcases hfind : (List.insertionSort productLe
        (items.filter (fun e => e.user_id == u))).find?
        (consumeEligible m) with _ | f
    · left
      simp [consume_assessment, consumeBody, dbQueryUser, hfind]
    · right
      refine ⟨f, rfl, rfl, ?_⟩
      simp [consume_assessment, consumeBody, dbQueryUser, hfind, dbUpdateItem]

/-- C4 is false on the code (counterexample): user `u` holds two active
matching entitlements — transaction `t2` on product `general_writing`
purchased at time 5 (older) and transaction `t1` on product
`academic_writing` purchased at time 10 (newer).  `consume` decrements
the newer `t1` (first in ascending product-id order) and leaves the
older `t2` untouched. -/
theorem consume_oldest_first_counterexample :
    ((consume_assessment 100 ⟨[
        ⟨"u", "general_writing", "t2", "ios", 2, 2, 5, "active", false, 5, 5,
          none, none⟩,
        ⟨"u", "academic_writing", "t1", "ios", 2, 2, 10, "active", false, 10,
          10, none, none⟩], false⟩ "u" "writing" "a1").2.items.map
      (fun e => (e.transaction_id, e.purchase_date, e.assessments_remaining)))
      = [("t2", 5, 2), ("t1", 10, 1)] := by
  decide

/-- C4 amended: whenever some eligible entitlement exists, `consume`
decrements the eligible entitlement that is first in ascending
product-id order (the store's key order) — regardless of purchase
timestamps — decrementing its units by one and flipping its status to
`consumed` exactly when the result is 0, leaving every other record
unchanged.  Since this selection rule depends only on product-id order
and eligibility, an entitlement keeps being decremented while it has
remaining units before any later-keyed one is touched. -/
theorem consume_first_in_key_order (now : Nat) (items : List Entitlement)
    (u m aid : String)
    (hex : ∃ e ∈ items, eligibleIn u m e = true) :
    ∃ f ∈ items, eligibleIn u m f = true
      ∧ (∀ e ∈ items, eligibleIn u m e = true → productLe f e)
      ∧ consume_assessment now ⟨items, false⟩ u m aid
        = (true, ⟨items.map (fun x =>
            if x.user_id == u && x.product_id == f.product_id then
              { x with assessments_remaining := f.assessments_remaining - 1,
                       status := if 0 < f.assessments_remaining - 1
                                 then "active" else "consumed",
                       updated_at := now,
                       last_used_assessment := some aid }
            else x), false⟩) := by
  have hsome : ((List.insertionSort productLe
      (items.filter (fun e => e.user_id == u))).find?
      (consumeEligible m)).isSome = true := by
    rw [List.find?_isSome]
    obtain ⟨e, he, heli⟩ := hex
    refine ⟨e, ?_, (Bool.and_eq_true_iff.mp heli).2⟩
    rw [List.mem_insertionSort, List.mem_filter]
    exact ⟨he, (Bool.and_eq_true_iff.mp heli).1⟩
  rcases hfind : (List.insertionSort productLe
      (items.filter (fun e => e.user_id == u))).find?
      (consumeEligible m) with _ | f
  · rw [hfind] at hsome
    simp at hsome
  · have hpf : consumeEligible m f = true := List.find?_some hfind
    have hmemf := List.mem_of_find?_eq_some hfind
    rw [List.mem_insertionSort, List.mem_filter] at hmemf
    refine ⟨f, hmemf.1, ?_, ?_, ?_⟩
    · simp only [eligibleIn, hmemf.2, hpf, Bool.and_true, Bool.true_and]
    · intro e he heli
      refine find_first_min (consumeEligible m) _ (sorted_query _) f hfind e
        ?_ (Bool.and_eq_true_iff.mp heli).2
      rw [List.mem_insertionSort, List.mem_filter]
      exact ⟨he, (Bool.and_eq_true_iff.mp heli).1⟩
    · simp [consume_assessment, consumeBody, dbQueryUser, hfind, dbUpdateItem]

/-- C4 amended witness: on the two-entitlement table of the
counterexample, the selected record is `t1` (`academic_writing`). -/
theorem consume_first_in_key_order_witness :
    ∃ f ∈ [
        (⟨"u", "general_writing", "t2", "ios", 2, 2, 5, "active", false, 5, 5,
          none, none⟩ : Entitlement),
        ⟨"u", "academic_writing", "t1", "ios", 2, 2, 10, "active", false, 10,
          10, none, none⟩], eligibleIn "u" "writing" f = true
      ∧ (∀ e ∈ [
          (⟨"u", "general_writing", "t2", "ios", 2, 2, 5, "active", false, 5,
            5, none, none⟩ : Entitlement),
          ⟨"u", "academic_writing", "t1", "ios", 2, 2, 10, "active", false,
            10, 10, none, none⟩], eligibleIn "u" "writing" e = true →
          productLe f e)
      ∧ consume_assessment 100 ⟨[
          ⟨"u", "general_writing", "t2", "ios", 2, 2, 5, "active", false, 5,
            5, none, none⟩,
          ⟨"u", "academic_writing", "t1", "ios", 2, 2, 10, "active", false,
            10, 10, none, none⟩], false⟩ "u" "writing" "a1"
        = (true, ⟨[
            (⟨"u", "general_writing", "t2", "ios", 2, 2, 5, "active", false,
              5, 5, none, none⟩ : Entitlement),
            ⟨"u", "academic_writing", "t1", "ios", 2, 2, 10, "active", false,
              10, 10, none, none⟩].map (fun x =>
            if x.user_id == "u" && x.product_id == f.product_id then
              { x with assessments_remaining := f.assessments_remaining - 1,
                       status := if 0 < f.assessments_remaining - 1
                                 then "active" else "consumed",
                       updated_at := 100,
                       last_used_assessment := some "a1" }
            else x), false⟩) :=
  consume_first_in_key_order 100 [
      ⟨"u", "general_writing", "t2", "ios", 2, 2, 5, "active", false, 5, 5,
        none, none⟩,
      ⟨"u", "academic_writing", "t1", "ios", 2, 2, 10, "active", false, 10,
        10, none, none⟩] "u" "writing" "a1" (by decide)

theorem recordOk_grantRecord (now : Nat) (u p tx pl : String)
    (r : Option String) : recordOk (grantRecord now u p tx pl r) := by
  have h2 := productAssessmentsGet_eq_two p
  simp [recordOk, grantRecord, h2]

theorem consume_update_preserves (items : List Entitlement) (f : Entitlement)
    (now : Nat) (u aid : String)
    (hwf : TableWf items) (hok : ∀ e ∈ items, recordOk e)
    (hfmem : f ∈ items) (hfu : f.user_id = u)
    (hrem : 0 < f.assessments_remaining) :
    TableWf (items.map (fun x =>
        if x.user_id == u && x.product_id == f.product_id then
          { x with assessments_remaining := f.assessments_remaining - 1,
                   status := if 0 < f.assessments_remaining - 1
                             then "active" else "consumed",
                   updated_at := now, last_used_assessment := some aid }
        else x))
    ∧ (∀ e ∈ items.map (fun x =>
        if x.user_id == u && x.product_id == f.product_id then
          { x with assessments_remaining := f.assessments_remaining - 1,
                   status := if 0 < f.assessments_remaining - 1
                             then "active" else "consumed",
                   updated_at := now, last_used_assessment := some aid }
        else x), recordOk e)
    ∧ MonoStep items (items.map (fun x =>
        if x.user_id == u && x.product_id == f.product_id then
          { x with assessments_remaining := f.assessments_remaining - 1,
                   status := if 0 < f.assessments_remaining - 1
                             then "active" else "consumed",
                   updated_at := now, last_used_assessment := some aid }
        else x)) := by
  have hkeep : ∀ x : Entitlement,
      entKey (if x.user_id == u && x.product_id == f.product_id then
        { x with assessments_remaining := f.assessments_remaining - 1,
                 status := if 0 < f.assessments_remaining - 1
                           then "active" else "consumed",
                 updated_at := now, last_used_assessment := some aid }
      else x) = entKey x
      ∧ (if x.user_id == u && x.product_id == f.product_id then
        { x with assessments_remaining := f.assessments_remaining - 1,
                 status := if 0 < f.assessments_remaining - 1
                           then "active" else "consumed",
                 updated_at := now, last_used_assessment := some aid }
      else x).transaction_id = x.transaction_id := by
    intro x
    by_cases hcnd : (x.user_id == u && x.product_id == f.product_id) = true
    · simp [hcnd, entKey]
    · simp [hcnd]
  have hxf : ∀ x ∈ items,
      (x.user_id == u && x.product_id == f.product_id) = true → x = f := by
    intro x hx hcnd
    obtain ⟨hxu, hxp⟩ := Bool.and_eq_true_iff.mp hcnd
    refine key_inj items hwf.1 x hx f hfmem ?_
    have hxu' : x.user_id = u := by simpa using hxu
    have hxp' : x.product_id = f.product_id := by simpa using hxp
    simp [entKey, hxu', hxp', hfu]
  have hupd : recordOk
      { f with assessments_remaining := f.assessments_remaining - 1,
               status := if 0 < f.assessments_remaining - 1
                         then "active" else "consumed",
               updated_at := now, last_used_assessment := some aid } := by
    refine ⟨?_, ?_, ?_⟩
    · show (0 : Int) ≤ f.assessments_remaining - 1
      omega
    · show ((if 0 < f.assessments_remaining - 1 then "active" else "consumed")
          = "consumed") ↔ f.assessments_remaining - 1 = 0
      by_cases hpos : 0 < f.assessments_remaining - 1
      · rw [if_pos hpos]
        exact iff_of_false (by decide) (by omega)
      · rw [if_neg hpos]
        exact iff_of_true rfl (by omega)
    · show ((if 0 < f.assessments_remaining - 1 then "active" else "consumed")
          = "active") ↔ 0 < f.assessments_remaining - 1
      by_cases hpos : 0 < f.assessments_remaining - 1
      · rw [if_pos hpos]
        exact iff_of_true rfl hpos
      · rw [if_neg hpos]
        exact iff_of_false (by decide) hpos
  refine ⟨⟨?_, ?_⟩, ?_, ?_⟩
  · rw [List.pairwise_map]
    refine hwf.1.imp ?_
    intro a b hab
    rw [(hkeep a).1, (hkeep b).1]
    exact hab
  · rw [List.pairwise_map]
    refine hwf.2.imp ?_
    intro a b hab
    rw [(hkeep a).2, (hkeep b).2]
    exact hab
  · intro e he
    obtain ⟨x, hx, hxe⟩ := List.mem_map.mp he
    by_cases hcnd : (x.user_id == u && x.product_id == f.product_id) = true
    · have hxf' := hxf x hx hcnd
      subst hxf'
      rw [if_pos hcnd] at hxe
      rw [← hxe]
      exact hupd
    · rw [if_neg hcnd] at hxe
      rw [← hxe]
      exact hok x hx
  · intro e he e2 he2 hetx
    obtain ⟨x, hx, hxe⟩ := List.mem_map.mp he2
    by_cases hcnd : (x.user_id == u && x.product_id == f.product_id) = true
    · have hxf' := hxf x hx hcnd
      subst hxf'
      rw [if_pos hcnd] at hxe
      have htx2 : e2.transaction_id = x.transaction_id := by
        rw [← hxe]
      have hex2 : e = x := tx_inj items hwf.2 e he x hx (by rw [← hetx, htx2])
      subst hex2
      rw [← hxe]
      exact sub_le_self _ (by norm_num)
    · rw [if_neg hcnd] at hxe
      subst hxe
      have hex2 : e = x := tx_inj items hwf.2 e he x hx hetx.symm
      subst hex2
      exact le_refl _

theorem applyOp_preserves (items : List Entitlement) (b : Bool) (op : LedgerOp)
    (hwf : TableWf items) (hok : ∀ e ∈ items, recordOk e) :
    TableWf (applyOp ⟨items, b⟩ op).items
    ∧ (∀ e ∈ (applyOp ⟨items, b⟩ op).items, recordOk e)
    ∧ MonoStep items (applyOp ⟨items, b⟩ op).items := by
  have hMonoId : MonoStep items items := by
    intro e he e2 he2 hetx
    rw [tx_inj items hwf.2 e2 he2 e he hetx]
  cases op with
  | grantOp now u p tx pl r =>
    rcases grant_cases now u p tx pl r items b with hc | ⟨hb0, hblank, hfresh, hc⟩
    · simp only [applyOp]
      rw [hc]
      exact ⟨hwf, hok, hMonoId⟩
    · simp only [applyOp]
      rw [hc]
      refine ⟨⟨?_, ?_⟩, ?_, ?_⟩
      · rw [List.pairwise_append]
        refine ⟨List.Pairwise.sublist (List.filter_sublist _) hwf.1, by simp, ?_⟩
        intro a ha bb hbb
        have hbb' : bb = grantRecord now u p tx pl r := by simpa using hbb
        subst hbb'
        have hmf := List.mem_filter.mp ha
        exact (sameKey_eq_false_iff a _).mp (by simpa using hmf.2)
      · rw [List.pairwise_append]
        refine ⟨List.Pairwise.sublist (List.filter_sublist _) hwf.2, by simp, ?_⟩
        intro a ha bb hbb
        have hbb' : bb = grantRecord now u p tx pl r := by simpa using hbb
        subst hbb'
        have ha' := List.mem_of_mem_filter ha
        simpa [grantRecord] using hfresh a ha'
      · intro e he
        rcases List.mem_append.mp he with h1 | h1
        · exact hok e (List.mem_of_mem_filter h1)
        · have he' : e = grantRecord now u p tx pl r := by simpa using h1
          rw [he']
          exact recordOk_grantRecord now u p tx pl r
      · intro e he e2 he2 hetx
        rcases List.mem_append.mp he2 with h1 | h1
        · have he2' := List.mem_of_mem_filter h1
          rw [tx_inj items hwf.2 e2 he2' e he hetx]
        · have he2' : e2 = grantRecord now u p tx pl r := by simpa using h1
          exfalso
          apply hfresh e he
          rw [← hetx, he2']
          rfl
  | consumeOp now u m aid =>
    rcases consume_cases now items b u m aid with hc | ⟨f, hb0, hfind, heq⟩
    · simp only [applyOp]
      rw [hc]
      exact ⟨hwf, hok, hMonoId⟩
    · simp only [applyOp]
      rw [heq]
      have hpf : consumeEligible m f = true := List.find?_some hfind
      have hmemf := List.mem_of_find?_eq_some hfind
      rw [List.mem_insertionSort, List.mem_filter] at hmemf
      have hfu : f.user_id = u := by
        simpa using hmemf.2
      have hrem : 0 < f.assessments_remaining := by
        have hh := (Bool.and_eq_true_iff.mp hpf).2
        simpa using hh
      exact consume_update_preserves items f now u aid hwf hok hmemf.1 hfu hrem

/-- C2: along every trace of grant/consume operations from a well-formed
ledger whose records satisfy the units invariant, every intermediate
ledger state keeps satisfying it — units-remaining is never negative,
status is `consumed` exactly at 0 remaining units and `active` exactly
while units remain — and no step ever increases the units of a
surviving record (identified by its transaction id). -/
theorem entitlement_units_invariant (items : List Entitlement) (b : Bool)
    (ops : List LedgerOp) (hwf : TableWf items)
    (hok : ∀ e ∈ items, recordOk e) :
    InvariantAlong ⟨items, b⟩ ops := by
  induction ops generalizing items b with
  | nil => trivial
  | cons op ops ih =>
    have hstep := applyOp_preserves items b op hwf hok
    rcases happly : applyOp ⟨items, b⟩ op with ⟨items2, b2⟩
    rw [happly] at hstep
    refine ⟨?_, ?_, ?_, ?_⟩
    · rw [happly]
      exact hstep.2.1
    · rw [happly]
      exact hstep.1
    · rw [happly]
      exact hstep.2.2
    · rw [happly]
      exact ih items2 b2 hstep.1 hstep.2.1

/-- C2 witness: a grant followed by a consume from the empty ledger. -/
theorem entitlement_units_invariant_witness :
    InvariantAlong ⟨[], false⟩
      [LedgerOp.grantOp 1 "u" "com.ieltsaiprep.academic.writing" "tx-1" "ios"
        none,
       LedgerOp.consumeOp 2 "u" "writing" "a1"] :=
  entitlement_units_invariant [] false _
    ⟨List.Pairwise.nil, List.Pairwise.nil⟩ (by simp)
